import Mathlib

/-!
Verification of the process-cleanup tool in src/browser_cleanup.py.

The script enumerates OS processes, classifies each one from its display
name and joined command line, kills the processes classified as targets
(Chrome processes launched under the mcp-chrome-profile automation
profile) and spares the Node.js Playwright server processes.

The embedding below models, straight from the source:
  - the Python substring test (the in operator) as occursIn on char lists;
  - str.lower as character-wise Char.toLower (ASCII case folding, which
    covers every marker constant of the script);
  - the join of the cmdline vector, with None treated as the empty list;
  - the two boolean predicates is_playwright_chrome and is_nodejs_server
    from lines 38-47 of the script;
  - the sweep loop of kill_browser_processes_only, with the per-process
    psutil exceptions made explicit on each process record and the two
    except clauses of the loop modelled as caught-exception filters;
  - the exit-code dispatch of main.
Verbosity only adds print statements in the script and is not modelled.
-/

namespace BrowserCleanup

/-- Contiguous-substring occurrence on lists of characters: occursIn pat s
is true when pat occurs contiguously inside s. It models the Python
expression pat in s. -/
def occursIn (pat : List Char) : List Char → Bool
  | [] => pat.isPrefixOf []
  | c :: cs => pat.isPrefixOf (c :: cs) || occursIn pat cs

/-- The Python membership test pat in s on strings. -/
def strContains (s pat : String) : Bool := occursIn pat.toList s.toList

/-- The Python method str.lower, modelled as character-wise lowering. -/
def lowerStr (s : String) : String := String.mk (s.data.map Char.toLower)

/-- The Python expression joining the cmdline list with single spaces,
where a missing vector is replaced by the empty list, as in line 35 of
the script. -/
def joinCmdline (cmdline : Option (List String)) : String :=
  String.intercalate " " (cmdline.getD [])

theorem isPrefixOf_iff_exists : ∀ (p s : List Char),
    p.isPrefixOf s = true ↔ ∃ t, s = p ++ t
  | [], s => by simp [List.isPrefixOf]
  | a :: as, [] => by simp [List.isPrefixOf]
  | a :: as, b :: bs => by
    simp only [List.isPrefixOf, Bool.and_eq_true, beq_iff_eq]
    rw [isPrefixOf_iff_exists as bs]
    constructor
    · rintro ⟨rfl, t, rfl⟩
      exact ⟨t, rfl⟩
    · rintro ⟨t, h⟩
      injection h with h1 h2
      exact ⟨h1.symm, t, h2⟩

theorem occursIn_iff (pat : List Char) : ∀ s : List Char,
    occursIn pat s = true ↔ ∃ a b, s = a ++ pat ++ b
  | [] => by
    rw [occursIn, isPrefixOf_iff_exists]
    constructor
    · rintro ⟨t, ht⟩
      rcases List.append_eq_nil.mp ht.symm with ⟨hp, htn⟩
      exact ⟨[], [], by simp [hp]⟩
    · rintro ⟨a, b, hab⟩
      rcases List.append_eq_nil.mp hab.symm with ⟨hap, hb⟩
      rcases List.append_eq_nil.mp hap with ⟨ha, hp⟩
      exact ⟨[], by simp [hp]⟩
  | c :: cs => by
    rw [occursIn]
    simp only [Bool.or_eq_true]
    rw [occursIn_iff pat cs, isPrefixOf_iff_exists]
    constructor
    · rintro (⟨t, ht⟩ | ⟨a, b, rfl⟩)
      · exact ⟨[], t, by simp [ht]⟩
      · exact ⟨c :: a, b, by simp⟩
    · rintro ⟨a, b, hab⟩
      cases a with
      | nil =>
        left
        exact ⟨b, by simpa using hab⟩
      | cons a0 as =>
        right
        simp only [List.cons_append, List.cons.injEq] at hab
        exact ⟨as, b, hab.2⟩

theorem strContains_iff (s pat : String) :
    strContains s pat = true ↔ ∃ a b, s.toList = a ++ pat.toList ++ b :=
  occursIn_iff pat.toList s.toList

theorem strContains_trans {s mid pat : String}
    (h1 : strContains mid pat = true) (h2 : strContains s mid = true) :
    strContains s pat = true := by
  rcases (strContains_iff mid pat).mp h1 with ⟨a, b, hab⟩
  rcases (strContains_iff s mid).mp h2 with ⟨u, v, huv⟩
  refine (strContains_iff s pat).mpr ⟨u ++ a, b ++ v, ?_⟩
  have hab2 : mid.data = a ++ pat.data ++ b := hab
  have huv2 : s.data = u ++ mid.data ++ v := huv
  simp [String.toList, huv2, hab2, List.append_assoc]

theorem strContains_lower {s pat : String} (h : strContains s pat = true) :
    strContains (lowerStr s) (lowerStr pat) = true := by
  rcases (strContains_iff s pat).mp h with ⟨a, b, hab⟩
  refine (strContains_iff _ _).mpr
    ⟨a.map Char.toLower, b.map Char.toLower, ?_⟩
  simp only [String.toList] at hab ⊢
  simp [lowerStr, hab]

/-- The predicate is_playwright_chrome of lines 38-41 of the script. -/
def is_playwright_chrome (proc_name cmdline : String) : Bool :=
  (strContains (lowerStr proc_name) "chrome" ||
    strContains proc_name "Google Chrome") &&
  strContains cmdline "mcp-chrome-profile"

/-- The predicate is_nodejs_server of lines 44-47 of the script. -/
def is_nodejs_server (proc_name cmdline : String) : Bool :=
  strContains (lowerStr proc_name) "node" &&
  (strContains cmdline "mcp-server-playwright" ||
    strContains cmdline "playwright")

/-- The three classification categories of the specification: a process
is target when it is to be killed, protectedVetoedIgnored when it matches
the browser pattern but the server pattern vetoes the kill, and ignored
otherwise. -/
inductive Classification where
  | target
  | protectedVetoedIgnored
  | ignored
  deriving DecidableEq

/-- A classification that is not terminable, in the sense of the spec
where both non-target categories are flavors of Ignored. -/
def Classification.isIgnored : Classification → Bool
  | Classification.target => false
  | _ => true

/-- The classification computed by the kill condition of line 49 of the
script: the process is killed exactly when is_playwright_chrome holds and
is_nodejs_server does not. -/
def classify (proc_name cmdline : String) : Classification :=
  if is_playwright_chrome proc_name cmdline then
    if is_nodejs_server proc_name cmdline then
      Classification.protectedVetoedIgnored
    else Classification.target
  else Classification.ignored

theorem google_redundant {n : String}
    (h : strContains n "Google Chrome" = true) :
    strContains (lowerStr n) "chrome" = true := by
  have h1 : strContains (lowerStr n) (lowerStr "Google Chrome") = true :=
    strContains_lower h
  have h2 : strContains (lowerStr "Google Chrome") "chrome" = true := by
    decide
  exact strContains_trans h2 h1

theorem is_playwright_chrome_eq (n c : String) :
    is_playwright_chrome n c =
      (strContains (lowerStr n) "chrome" &&
        strContains c "mcp-chrome-profile") := by
  unfold is_playwright_chrome
  cases hg : strContains n "Google Chrome" with
  | false => simp [hg]
  | true => simp [hg, google_redundant hg]

theorem is_nodejs_server_eq (n c : String) :
    is_nodejs_server n c =
      (strContains (lowerStr n) "node" && strContains c "playwright") := by
  unfold is_nodejs_server
  cases hm : strContains c "mcp-server-playwright" with
  | false => simp [hm]
  | true =>
    have hp : strContains c "playwright" = true :=
      strContains_trans (by decide) hm
    simp [hm, hp]

/-- The psutil exception classes handled by the sweep loop of the
script: the three classes of the first except clause on line 59 and the
timeout class of the clause on line 61. -/
inductive PyExc where
  | noSuchProcess
  | accessDenied
  | zombieProcess
  | timeoutExpired
  deriving DecidableEq

/-- A snapshot record for one enumerated process: the info fields that
process_iter prefetches, together with the behaviour the OS will exhibit
when the script acts on the process. killExc is the exception that
proc.kill raises, if any, and waitExc the exception that the bounded
proc.wait raises, if any; none means the call returns normally. -/
structure Proc where
  pid : Nat
  name : String
  cmdline : Option (List String)
  killExc : Option PyExc
  waitExc : Option PyExc
  deriving DecidableEq

/-- The kill condition of line 49: is_playwright_chrome and not
is_nodejs_server, on the joined command line. -/
def isTarget (p : Proc) : Bool :=
  is_playwright_chrome p.name (joinCmdline p.cmdline) &&
  !is_nodejs_server p.name (joinCmdline p.cmdline)

/-- Classification of a full process record, a function of its name and
joined command line only. -/
def classifyProc (p : Proc) : Classification :=
  classify p.name (joinCmdline p.cmdline)

/-- Exceptions caught by the first except clause of the loop,
line 59 of the script: NoSuchProcess, AccessDenied, ZombieProcess. -/
def caughtBySkipClause : PyExc → Bool
  | PyExc.noSuchProcess => true
  | PyExc.accessDenied => true
  | PyExc.zombieProcess => true
  | _ => false

/-- Exceptions caught by the second except clause of the loop,
line 61 of the script: TimeoutExpired. -/
def caughtByTimeoutClause : PyExc → Bool
  | PyExc.timeoutExpired => true
  | _ => false

/-- The loop body for one process, lines 34-57 of the script: returns
ok true when the count is incremented (the process was classified target
and, unless dry_run, kill and wait both returned), ok false when the
process is not a target, and error e when a psutil call raised e. The
increment of killed_count sits after proc.wait in the source, so a wait
exception prevents it. -/
def procStep (dry_run : Bool) (p : Proc) : Except PyExc Bool :=
  if isTarget p then
    if dry_run then Except.ok true
    else
      match p.killExc with
      | some e => Except.error e
      | none =>
        match p.waitExc with
        | some e => Except.error e
        | none => Except.ok true
  else Except.ok false

/-- Prepends p to the signalled-process list of a loop result when sig is
true, recording that proc.kill was invoked on p. -/
def addSignal (sig : Bool) (p : Proc) :
    Except PyExc (Nat × List Proc) → Except PyExc (Nat × List Proc)
  | Except.ok (n, sigs) => Except.ok (n, if sig then p :: sigs else sigs)
  | Except.error e => Except.error e

/-- The sweep loop of kill_browser_processes_only, lines 30-67: folds the
loop body over the snapshot, starting from the accumulated killed_count.
proc.kill is invoked on p exactly when p is classified target and the run
is not a dry run, which is recorded in the signalled list whatever the
outcome of the call. An exception caught by one of the two except clauses
makes the loop continue with the next process; any other exception would
propagate out of the loop. -/
def sweepAux (dry_run : Bool) : List Proc → Nat → Except PyExc (Nat × List Proc)
  | [], killed_count => Except.ok (killed_count, [])
  | p :: rest, killed_count =>
    let sig := isTarget p && !dry_run
    match procStep dry_run p with
    | Except.ok true => addSignal sig p (sweepAux dry_run rest (killed_count + 1))
    | Except.ok false => addSignal sig p (sweepAux dry_run rest killed_count)
    | Except.error e =>
      if caughtBySkipClause e then addSignal sig p (sweepAux dry_run rest killed_count)
      else if caughtByTimeoutClause e then
        addSignal sig p (sweepAux dry_run rest killed_count)
      else Except.error e

/-- One full sweep over a snapshot: killed_count starts at 0. -/
def sweep (dry_run : Bool) (snapshot : List Proc) :
    Except PyExc (Nat × List Proc) :=
  sweepAux dry_run snapshot 0

/-- The killed_count returned by the sweep. -/
def sweepCount (dry_run : Bool) (snapshot : List Proc) : Nat :=
  match sweep dry_run snapshot with
  | Except.ok (n, _) => n
  | Except.error _ => 0

/-- The processes on which proc.kill was invoked during the sweep. -/
def sweepSignaled (dry_run : Bool) (snapshot : List Proc) : List Proc :=
  match sweep dry_run snapshot with
  | Except.ok (_, sigs) => sigs
  | Except.error _ => []

/-- A process contributes to killed_count exactly when it is a target
and, in a non-dry run, its kill and wait calls both return normally. -/
def counted (dry_run : Bool) (p : Proc) : Bool :=
  isTarget p && (dry_run || (p.killExc == none && p.waitExc == none))

theorem sweepAux_eq (dry_run : Bool) :
    ∀ (s : List Proc) (acc : Nat),
      sweepAux dry_run s acc =
        Except.ok (acc + (s.filter (counted dry_run)).length,
          if dry_run then [] else s.filter isTarget)
  | [], acc => by simp [sweepAux]
  | p :: rest, acc => by
    have ih := sweepAux_eq dry_run rest
    cases hT : isTarget p with
    | false =>
      have hc : counted dry_run p = false := by simp [counted, hT]
      simp [sweepAux, procStep, hT, hc, addSignal, ih, List.filter_cons]
    | true =>
      cases dry_run with
      | true =>
        have hc : counted true p = true := by simp [counted, hT]
        simp [sweepAux, procStep, hT, hc, addSignal, ih, List.filter_cons,
          Nat.add_assoc, Nat.add_comm, Nat.add_left_comm]
      | false =>
        cases hK : p.killExc with
        | none =>
          cases hW : p.waitExc with
          | none =>
            have hc : counted false p = true := by
              simp [counted, hT, hK, hW]
            simp [sweepAux, procStep, hT, hK, hW, hc, addSignal, ih,
              List.filter_cons, Nat.add_assoc, Nat.add_comm,
              Nat.add_left_comm]
          | some e =>
            have hc : counted false p = false := by
              simp [counted, hT, hK, hW]
            cases e <;>
              simp [sweepAux, procStep, hT, hK, hW, hc, addSignal, ih,
                List.filter_cons, caughtBySkipClause, caughtByTimeoutClause]
        | some e =>
          have hc : counted false p = false := by simp [counted, hT, hK]
          cases e <;>
            simp [sweepAux, procStep, hT, hK, hc, addSignal, ih,
              List.filter_cons, caughtBySkipClause, caughtByTimeoutClause]

theorem sweep_eq (dry_run : Bool) (s : List Proc) :
    sweep dry_run s =
      Except.ok ((s.filter (counted dry_run)).length,
        if dry_run then [] else s.filter isTarget) := by
  simpa [sweep] using sweepAux_eq dry_run s 0

theorem sweepCount_eq (dry_run : Bool) (s : List Proc) :
    sweepCount dry_run s = (s.filter (counted dry_run)).length := by
  simp [sweepCount, sweep_eq]

theorem sweepSignaled_eq (dry_run : Bool) (s : List Proc) :
    sweepSignaled dry_run s = if dry_run then [] else s.filter isTarget := by
  simp [sweepSignaled, sweep_eq]

theorem mem_sweepSignaled_isTarget {d : Bool} {s : List Proc} {p : Proc}
    (h : p ∈ sweepSignaled d s) : isTarget p = true := by
  rw [sweepSignaled_eq] at h
  cases d with
  | true => simp at h
  | false => exact (List.mem_filter.mp (by simpa using h)).2

/-- Outcome of the try block of main, lines 77-94 of the script: the
sweep ran to completion on some snapshot, or a KeyboardInterrupt was
raised before completion, or some other exception escaped. -/
inductive RunEvent where
  | completes (snapshot : List Proc)
  | keyboardInterrupt
  | unexpectedError

/-- The return value of main for each outcome, lines 81-94 of the
script: both the killed and the nothing-found branch return 0,
KeyboardInterrupt returns 1, any other exception returns 2. -/
def mainExitCode (dry_run : Bool) : RunEvent → Nat
  | RunEvent.completes snapshot =>
    if sweepCount dry_run snapshot > 0 then 0 else 0
  | RunEvent.keyboardInterrupt => 1
  | RunEvent.unexpectedError => 2

/-- Definition following the spec wording of the classification rule,
where every check is case-insensitive substring matching, including the
command-line marker checks; to be compared with is_playwright_chrome,
whose command-line check is case-sensitive in the source. -/
def is_playwright_chrome_ci (proc_name cmdline : String) : Bool :=
  (strContains (lowerStr proc_name) "chrome" ||
    strContains (lowerStr proc_name) (lowerStr "Google Chrome")) &&
  strContains (lowerStr cmdline) "mcp-chrome-profile"

/-- Definition following the spec wording for the protected-server
check with case-insensitive command-line matching; to be compared with
is_nodejs_server from the source. -/
def is_nodejs_server_ci (proc_name cmdline : String) : Bool :=
  strContains (lowerStr proc_name) "node" &&
  (strContains (lowerStr cmdline) "mcp-server-playwright" ||
    strContains (lowerStr cmdline) "playwright")

/-- Classification under the spec wording of fully case-insensitive
matching. -/
def classify_ci (proc_name cmdline : String) : Classification :=
  if is_playwright_chrome_ci proc_name cmdline then
    if is_nodejs_server_ci proc_name cmdline then
      Classification.protectedVetoedIgnored
    else Classification.target
  else Classification.ignored

/-- A record matching both the browser-target pattern and the
protected-server pattern. -/
def bothProc : Proc :=
  { pid := 7, name := "node-chrome",
    cmdline := some ["mcp-chrome-profile", "mcp-server-playwright"],
    killExc := none, waitExc := none }

/-- A target record whose kill succeeds but whose bounded wait raises
TimeoutExpired. -/
def timeoutProc : Proc :=
  { pid := 101, name := "chrome",
    cmdline := some ["--user-data-dir=/tmp/mcp-chrome-profile"],
    killExc := none, waitExc := some PyExc.timeoutExpired }

/-- A target record that vanishes between enumeration and kill: the kill
call raises NoSuchProcess. -/
def vanishedProc : Proc :=
  { pid := 102, name := "Google Chrome Helper",
    cmdline := some ["--user-data-dir=/tmp/mcp-chrome-profile-123"],
    killExc := some PyExc.noSuchProcess, waitExc := none }

/-- A target record whose kill and wait both return normally. -/
def okProc : Proc :=
  { pid := 103, name := "chrome",
    cmdline := some ["mcp-chrome-profile"],
    killExc := none, waitExc := none }

/-- A record with the same name and cmdline as okProc but a different
pid and different dynamic behaviour. -/
def okProcTwin : Proc :=
  { pid := 999, name := "chrome",
    cmdline := some ["mcp-chrome-profile"],
    killExc := some PyExc.accessDenied, waitExc := none }

/-- A target record whose kill call raises AccessDenied. -/
def deniedProc : Proc :=
  { pid := 104, name := "Google Chrome",
    cmdline := some ["--type=renderer", "--user-data-dir=/tmp/mcp-chrome-profile"],
    killExc := some PyExc.accessDenied, waitExc := none }

/-- A record whose command-line vector is unavailable. -/
def noCmdProc : Proc :=
  { pid := 105, name := "chrome", cmdline := none,
    killExc := none, waitExc := none }

/-- C1: if a process matches both the browser-target pattern and the
protected-server pattern, its classification is the protected-vetoed
flavor of Ignored, never Target, and the sweep never invokes kill on it:
Protected takes precedence over Target. -/
theorem protected_precedence (dry_run : Bool) (s : List Proc) (p : Proc)
    (hB : is_playwright_chrome p.name (joinCmdline p.cmdline) = true)
    (hS : is_nodejs_server p.name (joinCmdline p.cmdline) = true) :
    classifyProc p = Classification.protectedVetoedIgnored ∧
    (classifyProc p).isIgnored = true ∧
    classifyProc p ≠ Classification.target ∧
    p ∉ sweepSignaled dry_run s := by
  have hct : classifyProc p = Classification.protectedVetoedIgnored := by
    simp [classifyProc, classify, hB, hS]
  refine ⟨hct, by simp [hct, Classification.isIgnored], by simp [hct], ?_⟩
  intro hmem
  have hT := mem_sweepSignaled_isTarget hmem
  simp [isTarget, hB, hS] at hT

/-- C1 witness: a concrete record matching both patterns is vetoed and
never signalled. -/
theorem protected_precedence_witness :
    classifyProc bothProc = Classification.protectedVetoedIgnored ∧
    (classifyProc bothProc).isIgnored = true ∧
    classifyProc bothProc ≠ Classification.target ∧
    bothProc ∉ sweepSignaled false [bothProc] :=
  protected_precedence false [bothProc] bothProc (by decide) (by decide)

/-- C2 counterexample: a target process is successfully signalled, kill
raising nothing, but its bounded wait times out; the sweep returns 0, so
the count is not incremented at signal-send time and a signalled target
that fails to exit within the wait does not count as killed. -/
theorem signal_count_cex :
    sweepCount false [timeoutProc] = 0 ∧
    sweepSignaled false [timeoutProc] = [timeoutProc] ∧
    timeoutProc.killExc = none ∧
    isTarget timeoutProc = true := by decide

/-- C2 amended: in a non-dry run the returned count equals the number of
target processes whose kill call and bounded wait both return normally;
the increment sits after the wait, so a signalled target that raises on
the wait, including a timeout, is not counted. -/
theorem killed_count_eq (s : List Proc) :
    sweepCount false s =
      (s.filter (fun p =>
        isTarget p && (p.killExc == none && p.waitExc == none))).length := by
  rw [sweepCount_eq]
  rfl

/-- C3 counterexample: on the same snapshot, a dry run counts the target
that would vanish at kill time while the real run does not, so the
dry-run count can differ from the non-dry-run count. -/
theorem dry_run_cex :
    sweepCount true [vanishedProc] = 1 ∧
    sweepCount false [vanishedProc] = 0 ∧
    sweepCount true [vanishedProc] ≠ sweepCount false [vanishedProc] := by
  decide

/-- C3 amended: a dry-run sweep issues zero termination signals and
counts exactly the target-classified processes; its count equals the
non-dry-run count on the same snapshot provided every target process
survives to the kill call and exits within the bounded wait. -/
theorem dry_run_law (s : List Proc)
    (hbenign : ∀ p ∈ s, isTarget p = true →
      p.killExc = none ∧ p.waitExc = none) :
    sweepSignaled true s = [] ∧
    sweepCount true s = (s.filter isTarget).length ∧
    sweepCount true s = sweepCount false s := by
  refine ⟨by simp [sweepSignaled_eq], ?_, ?_⟩
  · rw [sweepCount_eq]
    congr 1
    apply List.filter_congr
    intro p _
    simp [counted]
  · rw [sweepCount_eq, sweepCount_eq]
    congr 1
    apply List.filter_congr
    intro p hp
    cases hT : isTarget p with
    | false => simp [counted, hT]
    | true =>
      rcases hbenign p hp hT with ⟨hk, hw⟩
      simp [counted, hT, hk, hw]

/-- C3 witness: on a snapshot with one healthy target, the dry-run law
holds concretely. -/
theorem dry_run_law_witness :
    sweepSignaled true [okProc] = [] ∧
    sweepCount true [okProc] = ([okProc].filter isTarget).length ∧
    sweepCount true [okProc] = sweepCount false [okProc] :=
  dry_run_law [okProc] (by decide)

/-- C4 counterexample: the command-line marker check of the source is
case-sensitive, not case-insensitive: an upper-cased profile marker
fails the source check while the fully case-insensitive reading of the
rule would classify the process Target. -/
theorem case_sensitivity_cex :
    classify "chrome" "MCP-CHROME-PROFILE" = Classification.ignored ∧
    classify_ci "chrome" "MCP-CHROME-PROFILE" = Classification.target ∧
    is_playwright_chrome "chrome" "MCP-CHROME-PROFILE" = false ∧
    is_playwright_chrome_ci "chrome" "MCP-CHROME-PROFILE" = true := by
  decide

/-- C4 amended: only the display-name checks are effectively
case-insensitive: classification depends on the name through its
lowering alone, and both predicates reduce to a lowered-name token check
conjoined with case-sensitive marker checks on the raw command line. -/
theorem name_checks_case_insensitive (n1 n2 c : String)
    (h : lowerStr n1 = lowerStr n2) :
    classify n1 c = classify n2 c ∧
    is_playwright_chrome n1 c =
      (strContains (lowerStr n1) "chrome" &&
        strContains c "mcp-chrome-profile") ∧
    is_nodejs_server n1 c =
      (strContains (lowerStr n1) "node" && strContains c "playwright") := by
  refine ⟨?_, is_playwright_chrome_eq n1 c, is_nodejs_server_eq n1 c⟩
  unfold classify
  rw [is_playwright_chrome_eq, is_playwright_chrome_eq,
    is_nodejs_server_eq, is_nodejs_server_eq, h]

/-- C4 witness: an upper-cased and a lower-cased name classify alike. -/
theorem name_checks_case_insensitive_witness :
    classify "CHROME" "mcp-chrome-profile" =
      classify "chrome" "mcp-chrome-profile" ∧
    is_playwright_chrome "CHROME" "mcp-chrome-profile" =
      (strContains (lowerStr "CHROME") "chrome" &&
        strContains "mcp-chrome-profile" "mcp-chrome-profile") ∧
    is_nodejs_server "CHROME" "mcp-chrome-profile" =
      (strContains (lowerStr "CHROME") "node" &&
        strContains "mcp-chrome-profile" "playwright") :=
  name_checks_case_insensitive "CHROME" "chrome" "mcp-chrome-profile"
    (by decide)

/-- C5: classification is a deterministic, total, pure function of the
pair of name and command line: records agreeing on those fields receive
the same classification whatever their other fields, and every record
falls in exactly one of the three categories. -/
theorem classification_pure_total (p q : Proc)
    (hn : p.name = q.name) (hc : p.cmdline = q.cmdline) :
    classifyProc p = classifyProc q ∧
    (classifyProc p = Classification.target ∨
      classifyProc p = Classification.protectedVetoedIgnored ∨
      classifyProc p = Classification.ignored) ∧
    ¬(classifyProc p = Classification.target ∧
      classifyProc p = Classification.protectedVetoedIgnored) ∧
    ¬(classifyProc p = Classification.target ∧
      classifyProc p = Classification.ignored) ∧
    ¬(classifyProc p = Classification.protectedVetoedIgnored ∧
      classifyProc p = Classification.ignored) := by
  refine ⟨by simp [classifyProc, hn, hc], ?_, ?_, ?_, ?_⟩
  · cases h : classifyProc p <;> simp
  · rintro ⟨h1, h2⟩; rw [h1] at h2; simp at h2
  · rintro ⟨h1, h2⟩; rw [h1] at h2; simp at h2
  · rintro ⟨h1, h2⟩; rw [h1] at h2; simp at h2

/-- C5 witness: two records equal on name and cmdline but with different
pid and dynamic behaviour classify identically. -/
theorem classification_pure_total_witness :
    classifyProc okProc = classifyProc okProcTwin ∧
    (classifyProc okProc = Classification.target ∨
      classifyProc okProc = Classification.protectedVetoedIgnored ∨
      classifyProc okProc = Classification.ignored) ∧
    ¬(classifyProc okProc = Classification.target ∧
      classifyProc okProc = Classification.protectedVetoedIgnored) ∧
    ¬(classifyProc okProc = Classification.target ∧
      classifyProc okProc = Classification.ignored) ∧
    ¬(classifyProc okProc = Classification.protectedVetoedIgnored ∧
      classifyProc okProc = Classification.ignored) :=
  classification_pure_total okProc okProcTwin rfl rfl

/-- C6: a per-process condition, vanished, denied or zombie at the kill
call or a timed-out wait, is recovered locally: the sweep still returns
normally, the faulty process does not increment the count, processing
continues with the rest of the snapshot, and the condition is caught by
one of the two except clauses, never surfacing past the sweep. -/
theorem per_process_recovery (dry_run : Bool) (p : Proc)
    (rest : List Proc) (e : PyExc) (hT : isTarget p = true)
    (h : p.killExc = some e ∨ (p.killExc = none ∧ p.waitExc = some e)) :
    sweep dry_run (p :: rest) =
      Except.ok (sweepCount dry_run (p :: rest),
        sweepSignaled dry_run (p :: rest)) ∧
    sweepCount false (p :: rest) = sweepCount false rest ∧
    (caughtBySkipClause e || caughtByTimeoutClause e) = true := by
  refine ⟨by rw [sweep_eq, sweepCount_eq, sweepSignaled_eq], ?_, ?_⟩
  · rw [sweepCount_eq, sweepCount_eq]
    have hcp : counted false p = false := by
      rcases h with hk | ⟨hk, hw⟩
      · simp [counted, hT, hk]
      · simp [counted, hT, hk, hw]
    simp [List.filter_cons, hcp]
  · cases e <;> rfl

/-- C6 witness: a target whose kill raises AccessDenied is skipped
without counting and the sweep returns normally. -/
theorem per_process_recovery_witness :
    sweep false (deniedProc :: []) =
      Except.ok (sweepCount false (deniedProc :: []),
        sweepSignaled false (deniedProc :: [])) ∧
    sweepCount false (deniedProc :: []) = sweepCount false [] ∧
    (caughtBySkipClause PyExc.accessDenied ||
      caughtByTimeoutClause PyExc.accessDenied) = true :=
  per_process_recovery false deniedProc [] PyExc.accessDenied
    (by decide) (Or.inl rfl)

/-- C7: the killed count never exceeds the number of processes of the
snapshot classified Target. -/
theorem killed_le_targets (dry_run : Bool) (s : List Proc) :
    sweepCount dry_run s ≤ (s.filter isTarget).length := by
  rw [sweepCount_eq]
  refine List.Sublist.length_le (List.monotone_filter_right s ?_)
  intro p hp
  simp only [counted, Bool.and_eq_true] at hp
  exact hp.1

/-- C8: main returns 0 on normal completion whatever the killed count,
including a zero count, 1 on a keyboard interrupt before completion,
and 2 on an unexpected internal error. -/
theorem exit_codes (dry_run : Bool) (s : List Proc) :
    mainExitCode dry_run (RunEvent.completes s) = 0 ∧
    mainExitCode dry_run RunEvent.keyboardInterrupt = 1 ∧
    mainExitCode dry_run RunEvent.unexpectedError = 2 := by
  refine ⟨?_, rfl, rfl⟩
  simp [mainExitCode]

/-- C9: the protected-server predicate is equivalent to the simpler
check that node occurs in the lowered name and playwright occurs in the
command line, because the marker mcp-server-playwright contains
playwright as a substring, so the first disjunct never changes the
result. -/
theorem nodejs_server_simplified (n c : String) :
    is_nodejs_server n c =
      (strContains (lowerStr n) "node" && strContains c "playwright") ∧
    strContains "mcp-server-playwright" "playwright" = true :=
  ⟨is_nodejs_server_eq n c, by decide⟩

/-- C10: a record whose command-line vector is unavailable or empty is
treated as having an empty command line, classified Ignored, never
signalled, and the sweep returns normally on any snapshot holding it. -/
theorem empty_cmdline_ignored (dry_run : Bool) (s : List Proc) (p : Proc)
    (h : p.cmdline = none ∨ p.cmdline = some []) :
    joinCmdline p.cmdline = "" ∧
    classifyProc p = Classification.ignored ∧
    isTarget p = false ∧
    p ∉ sweepSignaled dry_run s ∧
    sweep dry_run s =
      Except.ok (sweepCount dry_run s, sweepSignaled dry_run s) := by
  have hj : joinCmdline p.cmdline = "" := by
    rcases h with h | h <;> simp [joinCmdline, h, String.intercalate]
  have hnm : strContains "" "mcp-chrome-profile" = false := by decide
  have hpc : is_playwright_chrome p.name "" = false := by
    simp [is_playwright_chrome, hnm]
  refine ⟨hj, ?_, ?_, ?_,
    by rw [sweep_eq, sweepCount_eq, sweepSignaled_eq]⟩
  · simp [classifyProc, classify, hj, hpc]
  · simp [isTarget, hj, hpc]
  · intro hmem
    have hT := mem_sweepSignaled_isTarget hmem
    simp [isTarget, hj, hpc] at hT

/-- C10 witness: a concrete record without a command-line vector is
ignored and never signalled. -/
theorem empty_cmdline_ignored_witness :
    joinCmdline noCmdProc.cmdline = "" ∧
    classifyProc noCmdProc = Classification.ignored ∧
    isTarget noCmdProc = false ∧
    noCmdProc ∉ sweepSignaled false [noCmdProc] ∧
    sweep false [noCmdProc] =
      Except.ok (sweepCount false [noCmdProc],
        sweepSignaled false [noCmdProc]) :=
  empty_cmdline_ignored false [noCmdProc] noCmdProc (Or.inl rfl)

end BrowserCleanup
